import Mathlib

/-!
Verification development for the GoldenHandQuant backtest engine.

The Python sources under `src/` are shallowly embedded: Python `float`
is modelled as `ℚ` (exact arithmetic; the spec tolerates ≤ 0.01 absolute
error at observation points), Python `int` as `ℤ`, `datetime` values as
abstract `ℕ` tick counts (`datetime.now()` becomes an explicit `now`
argument), and raising `ValueError` / `RuntimeError` / `OrderSubmitError`
as `Except String` (in Python every raise in the embedded methods happens
before any field mutation, so returning the old state on error is exact).
Python `dict`s (which preserve insertion order) are modelled as
association lists with insertion-order update.
-/

namespace GoldenHand

/-- Python `int(q)` truncation toward zero on a rational. -/
def pyInt (q : ℚ) : ℤ := if 0 ≤ q then ⌊q⌋ else ⌈q⌉

/-- Python `lst[-limit:]` slicing used by `MockMarketGateway.get_recent_bars`.
For `limit > 0` this keeps the last `limit` elements; for `limit = 0` the
slice is `lst[0:]`, i.e. the whole list (`-0 == 0` in Python); for
`limit < 0` it is `lst[(-limit):]`, dropping the first `-limit` elements. -/
def pyTail (limit : ℤ) (l : List α) : List α :=
  if 0 < limit then l.drop (((l.length : ℤ) - limit).toNat)
  else l.drop (-limit).toNat

/-- `dict.get` on an insertion-ordered association list. -/
def assocGet [DecidableEq α] (k : α) : List (α × β) → Option β
  | [] => none
  | (k1, v) :: rest => if k1 = k then some v else assocGet k rest

/-- `dict[k] = v` on an insertion-ordered association list: replaces in
place if the key exists, otherwise appends at the end. -/
def assocSet [DecidableEq α] (k : α) (v : β) : List (α × β) → List (α × β)
  | [] => [(k, v)]
  | (k1, v1) :: rest => if k1 = k then (k, v) :: rest else (k1, v1) :: assocSet k v rest

/-- `del dict[k]` on an association list. -/
def assocErase [DecidableEq α] (k : α) : List (α × β) → List (α × β)
  | [] => []
  | (k1, v1) :: rest => if k1 = k then rest else (k1, v1) :: assocErase k rest

/-- `OrderStatus` from `src/domain/trade/order.py`. -/
inductive OrderStatus where
  | created
  | submitted
  | partialFilled
  | filled
  | canceled
  | rejected
  | partialCanceled
deriving DecidableEq, Repr

/-- `OrderDirection` from `src/domain/trade/order.py`. -/
inductive OrderDirection where
  | buy
  | sell
deriving DecidableEq, Repr

/-- `OrderType` from `src/domain/trade/order.py`. -/
inductive OrderType where
  | limit
  | market
deriving DecidableEq, Repr

/-- `Timeframe` from `src/domain/market/value_objects/timeframe.py`. -/
inductive Timeframe where
  | min1
  | min5
  | min15
  | min30
  | hour1
  | day1
deriving DecidableEq, Repr

/-- `Bar` from `src/domain/market/value_objects/bar.py` (`open` is a Lean
keyword, hence the field name `open_`). -/
structure Bar where
  symbol : String
  timeframe : Timeframe
  timestamp : ℕ
  open_ : ℚ
  high : ℚ
  low : ℚ
  close : ℚ
  volume : ℚ
deriving DecidableEq, Repr

/-- `Asset` from `src/domain/account/asset.py`. -/
structure Asset where
  account_id : String
  total_asset : ℚ
  available_cash : ℚ
  frozen_cash : ℚ
  updated_at : ℕ
deriving DecidableEq, Repr

/-- `Asset.freeze_cash`: moves `amount` from available to frozen; raises
`ValueError` on non-positive amount or insufficient available cash. -/
def Asset.freeze_cash (a : Asset) (amount : ℚ) (now : ℕ) : Except String Asset :=
  if amount ≤ 0 then .error "Freeze amount must be positive"
  else if amount > a.available_cash then .error "Insufficient available cash"
  else .ok { a with available_cash := a.available_cash - amount,
                    frozen_cash := a.frozen_cash + amount,
                    updated_at := now }

/-- `Asset.unfreeze_cash`: moves `amount` back from frozen to available. -/
def Asset.unfreeze_cash (a : Asset) (amount : ℚ) (now : ℕ) : Except String Asset :=
  if amount ≤ 0 then .error "Unfreeze amount must be positive"
  else if amount > a.frozen_cash then .error "Cannot unfreeze more than frozen cash"
  else .ok { a with frozen_cash := a.frozen_cash - amount,
                    available_cash := a.available_cash + amount,
                    updated_at := now }

/-- `Asset.deduct_frozen_cash`: removes `amount` from frozen cash without
touching `total_asset`. -/
def Asset.deduct_frozen_cash (a : Asset) (amount : ℚ) (now : ℕ) : Except String Asset :=
  if amount ≤ 0 then .error "Deduct amount must be positive"
  else if amount > a.frozen_cash then .error "Cannot deduct more than frozen cash"
  else .ok { a with frozen_cash := a.frozen_cash - amount, updated_at := now }

/-- `Asset.deposit`: adds `amount` to both available cash and total asset. -/
def Asset.deposit (a : Asset) (amount : ℚ) (now : ℕ) : Except String Asset :=
  if amount ≤ 0 then .error "Deposit amount must be positive"
  else .ok { a with available_cash := a.available_cash + amount,
                    total_asset := a.total_asset + amount,
                    updated_at := now }

/-- `Position` from `src/domain/account/position.py`. -/
structure Position where
  account_id : String
  ticker : String
  total_volume : ℤ
  available_volume : ℤ
  average_cost : ℚ
  updated_at : ℕ
deriving DecidableEq, Repr

/-- `Position.on_buy_filled`: adds `volume` to `total_volume`, leaves
`available_volume` unchanged (T+1), and updates the moving
volume-weighted `average_cost`. -/
def Position.on_buy_filled (p : Position) (volume : ℤ) (price : ℚ) (now : ℕ) :
    Except String Position :=
  if volume ≤ 0 then .error "Buy volume must be positive"
  else if price < 0 then .error "Price cannot be negative"
  else
    let current_total_cost := (p.total_volume : ℚ) * p.average_cost
    let new_cost_basis := (volume : ℚ) * price
    let new_total := p.total_volume + volume
    .ok { p with total_volume := new_total,
                 average_cost :=
                   if new_total > 0 then (current_total_cost + new_cost_basis) / (new_total : ℚ)
                   else 0,
                 updated_at := now }

/-- `Position.on_sell_filled`: decrements both `total_volume` and
`available_volume`, resetting `average_cost` when the position empties. -/
def Position.on_sell_filled (p : Position) (volume : ℤ) (_price : ℚ) (now : ℕ) :
    Except String Position :=
  if volume ≤ 0 then .error "Sell volume must be positive"
  else if volume > p.available_volume then .error "Insufficient available volume"
  else
    let new_total := p.total_volume - volume
    .ok { p with total_volume := new_total,
                 available_volume := p.available_volume - volume,
                 average_cost := if new_total = 0 then 0 else p.average_cost,
                 updated_at := now }

/-- `Position.settle_t_plus_1`: promotes all holdings to sellable. -/
def Position.settle_t_plus_1 (p : Position) (now : ℕ) : Position :=
  { p with available_volume := p.total_volume, updated_at := now }

/-- `Order` from `src/domain/trade/order.py`. -/
structure Order where
  order_id : String
  account_id : String
  ticker : String
  direction : OrderDirection
  price : ℚ
  volume : ℤ
  type : OrderType
  status : OrderStatus
  traded_volume : ℤ
  traded_price : ℚ
  created_at : ℕ
  updated_at : ℕ
  remark : String
deriving DecidableEq, Repr

/-- `Order.submit`: CREATED → SUBMITTED; raises otherwise. -/
def Order.submit (o : Order) (now : ℕ) : Except String Order :=
  if o.status ≠ OrderStatus.created then .error "Cannot submit order"
  else .ok { o with status := OrderStatus.submitted, updated_at := now }

/-- `Order.on_fill`: fill report. Requires state SUBMITTED or
PARTIAL_FILLED; a non-positive `fill_volume` returns early with the order
unchanged; otherwise updates the VWAP `traded_price`, accumulates
`traded_volume`, and moves to FILLED (full) or PARTIAL_FILLED (partial). -/
def Order.on_fill (o : Order) (fill_volume : ℤ) (fill_price : ℚ) (now : ℕ) :
    Except String Order :=
  if o.status ≠ OrderStatus.submitted ∧ o.status ≠ OrderStatus.partialFilled then
    .error "Cannot fill order"
  else if fill_volume ≤ 0 then .ok o
  else
    let new_traded_volume := o.traded_volume + fill_volume
    if new_traded_volume > o.volume then .error "Fill volume exceeds order volume"
    else
      let current_value := (o.traded_volume : ℚ) * o.traded_price
      let new_fill_value := (fill_volume : ℚ) * fill_price
      .ok { o with traded_price := (current_value + new_fill_value) / (new_traded_volume : ℚ),
                   traded_volume := new_traded_volume,
                   status := if new_traded_volume = o.volume then OrderStatus.filled
                             else OrderStatus.partialFilled,
                   updated_at := now }

/-- `Order.cancel`: SUBMITTED → CANCELED, PARTIAL_FILLED →
PARTIAL_CANCELED; raises otherwise. -/
def Order.cancel (o : Order) (now : ℕ) : Except String Order :=
  match o.status with
  | OrderStatus.submitted => .ok { o with status := OrderStatus.canceled, updated_at := now }
  | OrderStatus.partialFilled =>
      .ok { o with status := OrderStatus.partialCanceled, updated_at := now }
  | _ => .error "Cannot cancel order"

/-- `Order.reject`: SUBMITTED → REJECTED, recording the reason; raises
otherwise. -/
def Order.reject (o : Order) (reason : String) (now : ℕ) : Except String Order :=
  if o.status ≠ OrderStatus.submitted then .error "Cannot reject order"
  else .ok { o with status := OrderStatus.rejected, remark := reason, updated_at := now }

/-- `TradeRecord` from `src/domain/backtest/value_objects/trade_record.py`
(its `commission` field aggregates commission + stamp duty + transfer fee). -/
structure TradeRecord where
  symbol : String
  direction : OrderDirection
  execute_at : ℕ
  price : ℚ
  volume : ℤ
  commission : ℚ
  realized_pnl : ℚ
  remark : String
deriving DecidableEq, Repr

/-- The mutable state of `MockTradeGateway`
(`src/infrastructure/mock/mock_trade.py`): the asset ledger, the
positions dict keyed by ticker, the trade log, and the orders dict. -/
structure GatewayState where
  asset : Asset
  positions : List (String × Position)
  trade_records : List TradeRecord
  orders : List (String × Order)
deriving DecidableEq, Repr

/-- `MockTradeGateway.COMMISSION_RATE`. -/
def commission_rate : ℚ := 0.00025

/-- `MockTradeGateway.MIN_COMMISSION`. -/
def min_commission : ℚ := 5

/-- `MockTradeGateway.STAMP_DUTY_RATE` (charged on SELL only). -/
def stamp_duty_rate : ℚ := 0.0005

/-- `MockTradeGateway.TRANSFER_FEE_RATE`. -/
def transfer_fee_rate : ℚ := 0.00001

/-- `MockTradeGateway.SLIPPAGE_BUY`. -/
def slippage_buy : ℚ := 0.001

/-- `MockTradeGateway.SLIPPAGE_SELL`. -/
def slippage_sell : ℚ := 0.001

/-- `MockTradeGateway.CAPACITY_LIMIT_RATIO` (10% of bar volume). -/
def capacity_limit : ℚ := 0.1

/-- `MockTradeGateway.__init__` with a given initial capital. -/
def initGateway (initial_capital : ℚ) : GatewayState :=
  { asset := { account_id := "MOCK_ACCOUNT", total_asset := initial_capital,
               available_cash := initial_capital, frozen_cash := 0, updated_at := 0 },
    positions := [], trade_records := [], orders := [] }

/-- The liquidity cap computed in `place_order` step 4:
`max_vol = int(bar.volume * CAPACITY_LIMIT_RATIO)` rounded down to a lot
of 100 with Python floor division. -/
def max_fill_of (bar : Bar) : ℤ := (Int.ediv (pyInt (bar.volume * capacity_limit)) 100) * 100

/-- `MockTradeGateway._calculate_costs`: returns
`(total_impact, commission, tax, transfer_fee)` where `total_impact` is
`amount + fees` for a BUY and `amount - fees` for a SELL. -/
def calculate_costs (price : ℚ) (volume : ℤ) (direction : OrderDirection) :
    ℚ × ℚ × ℚ × ℚ :=
  let amount := price * (volume : ℚ)
  let commission := max (amount * commission_rate) min_commission
  let transfer_fee := amount * transfer_fee_rate
  let tax := if direction = OrderDirection.sell then amount * stamp_duty_rate else 0
  let total_fees := commission + transfer_fee + tax
  if direction = OrderDirection.buy then (amount + total_fees, commission, tax, transfer_fee)
  else (amount - total_fees, commission, tax, transfer_fee)

/-- Result of a `place_order` call: either the order id together with the
final state and final (aliased) order object, or the raised
`OrderSubmitError` / `ValueError` / `RuntimeError` message together with
the state and order as they stand when the exception leaves the method. -/
inductive PlaceResult where
  | ok (st : GatewayState) (order : Order) (order_id : String)
  | err (st : GatewayState) (order : Order) (msg : String)
deriving DecidableEq, Repr

/-- The state observable after a `place_order` call, exception or not. -/
def PlaceResult.resState : PlaceResult → GatewayState
  | .ok st _ _ => st
  | .err st _ _ => st

/-- The (aliased) order object after a `place_order` call. -/
def PlaceResult.resOrder : PlaceResult → Order
  | .ok _ o _ => o
  | .err _ o _ => o

/-- The raised error message of a `place_order` call, if any. -/
def PlaceResult.errMsg : PlaceResult → Option String
  | .ok _ _ _ => none
  | .err _ _ m => some m

/-- `MockTradeGateway._simulate_fill`: cash settlement, position update,
order fill (with the capacity-capped tail forced to PARTIAL_CANCELED by
direct assignment), and trade-record append. A raise leaves the
mutations already performed in place, mirroring the in-place Python
mutation order. -/
def simulate_fill (st : GatewayState) (order : Order) (price : ℚ) (volume : ℤ)
    (commission tax transfer_fee frozen_amount : ℚ) (now : ℕ) :
    GatewayState × Order × Option String :=
  let fees := commission + tax + transfer_fee
  let cashRes : Except String Asset :=
    if order.direction = OrderDirection.buy then
      match st.asset.deduct_frozen_cash frozen_amount now with
      | .error e => .error e
      | .ok a1 =>
        let actual_cost := price * (volume : ℚ) + commission + tax + transfer_fee
        .ok { a1 with available_cash := a1.available_cash - (actual_cost - frozen_amount),
                      total_asset := a1.total_asset - fees }
    else
      let income := price * (volume : ℚ) - commission - tax - transfer_fee
      .ok { st.asset with available_cash := st.asset.available_cash + income,
                          total_asset := st.asset.total_asset - fees }
  match cashRes with
  | .error e => (st, order, some e)
  | .ok asset1 =>
    let st1 := { st with asset := asset1 }
    let pos0 : Position :=
      match assocGet order.ticker st1.positions with
      | some p => p
      | none => { account_id := st1.asset.account_id, ticker := order.ticker,
                  total_volume := 0, available_volume := 0, average_cost := 0,
                  updated_at := now }
    -- Python inserts a freshly created Position into the dict before the
    -- fill; the dict entry and the local variable alias the same object.
    let stIns :=
      if (assocGet order.ticker st1.positions).isNone then
        { st1 with positions := assocSet order.ticker pos0 st1.positions }
      else st1
    let fillRes : Except String (Position × ℚ) :=
      if order.direction = OrderDirection.buy then
        (pos0.on_buy_filled volume price now).map (fun p => (p, 0))
      else
        let realized := (price - pos0.average_cost) * (volume : ℚ) - fees
        (pos0.on_sell_filled volume price now).map (fun p => (p, realized))
    match fillRes with
    | .error e => (stIns, order, some e)
    | .ok (pos1, realized_pnl) =>
      let st2 :=
        if pos1.total_volume = 0 then
          { stIns with positions := assocErase order.ticker stIns.positions }
        else
          { stIns with positions := assocSet order.ticker pos1 stIns.positions }
      match order.on_fill volume price now with
      | .error e => (st2, order, some e)
      | .ok order1 =>
        let order2 :=
          if volume < order1.volume ∧ order1.status = OrderStatus.partialFilled then
            { order1 with status := OrderStatus.partialCanceled }
          else order1
        let record : TradeRecord :=
          { symbol := order.ticker, direction := order.direction,
            execute_at := order.created_at, price := price, volume := volume,
            commission := commission + tax + transfer_fee,
            realized_pnl := realized_pnl, remark := "Slippage: 0.1%" }
        ({ st2 with trade_records := st2.trade_records ++ [record] }, order2, none)

/-- Steps 6–8 of `MockTradeGateway.place_order` once all pre-checks have
passed and `submit()` has succeeded: store the order, freeze the
estimated cost for a BUY, run `_simulate_fill`, and on an exception roll
back the freeze (deduct then re-credit) before re-raising. -/
def place_order_exec (st : GatewayState) (order1 : Order) (exec_price : ℚ)
    (fill_volume : ℤ) (commission tax transfer_fee total_cost : ℚ) (now : ℕ) :
    PlaceResult :=
  let st1 := { st with orders := assocSet order1.order_id order1 st.orders }
  let frozen_amount := if order1.direction = OrderDirection.buy then total_cost else 0
  match (if order1.direction = OrderDirection.buy then st1.asset.freeze_cash total_cost now
         else .ok st1.asset) with
  | .error e => .err st1 order1 e
  | .ok asset1 =>
    let st2 := { st1 with asset := asset1 }
    match simulate_fill st2 order1 exec_price fill_volume commission tax transfer_fee
        frozen_amount now with
    | (st3, order2, none) =>
      .ok { st3 with orders := assocSet order2.order_id order2 st3.orders } order2
        order2.order_id
    | (st3, order2, some e) =>
      let stOrd := { st3 with orders := assocSet order2.order_id order2 st3.orders }
      if frozen_amount > 0 then
        match stOrd.asset.deduct_frozen_cash frozen_amount now with
        | .ok a1 =>
          .err { stOrd with
                 asset := { a1 with available_cash := a1.available_cash + frozen_amount } }
            order2 e
        | .error e2 => .err stOrd order2 e2
      else .err stOrd order2 e

/-- The SELL pre-check of `place_order` step 5:
`not position or position.available_volume < fill_volume`. -/
def sell_blocked (st : GatewayState) (ticker : String) (fill_volume : ℤ) : Bool :=
  match assocGet ticker st.positions with
  | none => true
  | some p => decide (p.available_volume < fill_volume)

/-- `MockTradeGateway.place_order`. `bars` is the result of
`market_gateway.get_recent_bars(order.ticker, "1d", 1)`; error-message
strings keep the constant prefix of the Python f-strings, eliding the
interpolated numbers. Rejections at the liquidity / funds / position
gates assign `OrderStatus.REJECTED` to the order directly (not via
`Order.reject`) and leave the gateway state untouched. -/
def place_order (st : GatewayState) (order : Order) (bars : List Bar) (now : ℕ) :
    PlaceResult :=
  if order.volume ≤ 0 then .err st order "Volume must be positive"
  else
    match bars with
    | [] => .err st order "No market data"
    | bar :: _ =>
      let exec_price :=
        if order.direction = OrderDirection.buy then bar.close * (1 + slippage_buy)
        else bar.close * (1 - slippage_sell)
      let fill_volume := min order.volume (max_fill_of bar)
      if fill_volume < 100 then
        .err st { order with status := OrderStatus.rejected } "Insufficient liquidity"
      else
        let c := calculate_costs exec_price fill_volume order.direction
        if order.direction = OrderDirection.buy ∧ st.asset.available_cash < c.1 then
          .err st { order with status := OrderStatus.rejected } "Insufficient funds"
        else if order.direction = OrderDirection.sell ∧
            sell_blocked st order.ticker fill_volume then
          .err st { order with status := OrderStatus.rejected } "Insufficient position"
        else
          match order.submit now with
          | .error e => .err st order e
          | .ok order1 =>
            place_order_exec st order1 exec_price fill_volume c.2.1 c.2.2.1 c.2.2.2 c.1 now

/-- `MockTradeGateway.cancel_all_open_orders`: every SUBMITTED or
PARTIAL_FILLED order has its status set to CANCELED by direct assignment
(no `cancel()` call, no unfreezing, `updated_at` untouched). -/
def cancel_all_open_orders (st : GatewayState) : GatewayState :=
  { st with orders := st.orders.map (fun kv =>
      if kv.2.status = OrderStatus.submitted ∨ kv.2.status = OrderStatus.partialFilled then
        (kv.1, { kv.2 with status := OrderStatus.canceled })
      else kv) }

/-- `MockTradeGateway.daily_settlement`: cancel all open orders, then
`settle_t_plus_1()` on every position. -/
def daily_settlement (st : GatewayState) (now : ℕ) : GatewayState :=
  let st1 := cancel_all_open_orders st
  { st1 with positions := st1.positions.map (fun kv => (kv.1, kv.2.settle_t_plus_1 now)) }

/-- The state of `MockMarketGateway`
(`src/infrastructure/mock/mock_market.py`): bar lists keyed by symbol and
timeframe, plus the simulation clock set by `set_current_time`. -/
structure MarketState where
  data : List (String × List (Timeframe × List Bar))
  current_time : ℕ
deriving Repr

/-- `MockMarketGateway.get_recent_bars`: looks up the stored bars for
`(symbol, timeframe)`, keeps those with `timestamp <= current_time`
(no look-ahead), and returns the Python slice `valid_bars[-limit:]`. -/
def get_recent_bars (m : MarketState) (symbol : String) (tf : Timeframe) (limit : ℤ) :
    List Bar :=
  match assocGet symbol m.data with
  | none => []
  | some tfs =>
    match assocGet tf tfs with
    | none => []
    | some all_bars =>
      pyTail limit (all_bars.filter (fun b => decide (b.timestamp ≤ m.current_time)))

/-- The documented storage invariant of `MockMarketGateway`: every stored
bar list is ascending by timestamp (`add_bars` sorts after insertion and
`__init__` documents `initial_data` as already ascending). -/
def MarketSorted (m : MarketState) : Prop :=
  ∀ p ∈ m.data, ∀ q ∈ p.2, q.2.Pairwise (fun a b => a.timestamp ≤ b.timestamp)

/-- `DailySnapshot` from
`src/domain/backtest/value_objects/daily_snapshot.py`. -/
structure DailySnapshot where
  date : ℕ
  total_asset : ℚ
  available_cash : ℚ
  market_value : ℚ
  pnl : ℚ
  return_rate : ℚ
deriving DecidableEq, Repr

/-- `BacktestReport` from
`src/domain/backtest/entities/backtest_report.py`. -/
structure BacktestReport where
  start_date : ℕ
  end_date : ℕ
  initial_capital : ℚ
  final_capital : ℚ
  total_return : ℚ
  annualized_return : ℚ
  max_drawdown : ℚ
  win_rate : ℚ
  trade_count : ℕ
  trades : List TradeRecord
  snapshots : List DailySnapshot
deriving DecidableEq, Repr

/-- `PerformanceEvaluator.evaluate`. Dates are day numbers, so
`(end_date - start_date).days` becomes integer subtraction. Python's
float exponentiation `(1 + total_return) ** (365 / days)` is not exactly
representable over ℚ, so the evaluator is parameterized by the power
function `pow_fn` it uses there; no claim below depends on its value. -/
def evaluate (pow_fn : ℚ → ℚ → ℚ) (start_date end_date : ℕ) (initial_capital : ℚ)
    (snapshots : List DailySnapshot) (trades : List TradeRecord) : BacktestReport :=
  match snapshots with
  | [] =>
    { start_date := start_date, end_date := end_date,
      initial_capital := initial_capital, final_capital := initial_capital,
      total_return := 0, annualized_return := 0, max_drawdown := 0, win_rate := 0,
      trade_count := trades.length, trades := trades, snapshots := snapshots }
  | s0 :: rest =>
    let snaps := s0 :: rest
    let final_capital := (snaps.getLastD s0).total_asset
    let total_return := (final_capital - initial_capital) / initial_capital
    let days : ℤ := (end_date : ℤ) - (start_date : ℤ)
    let annualized_return :=
      if days > 0 then pow_fn (1 + total_return) (365 / (days : ℚ)) - 1 else 0
    let step := fun (acc : ℚ × ℚ) (snap : DailySnapshot) =>
      let peak := if snap.total_asset > acc.2 then snap.total_asset else acc.2
      let drawdown := if peak > 0 then (peak - snap.total_asset) / peak else 0
      (if drawdown > acc.1 then drawdown else acc.1, peak)
    let max_drawdown := (snaps.foldl step (0, initial_capital)).1
    let sell_trades := trades.filter (fun t => decide (t.direction = OrderDirection.sell))
    let win_count :=
      (sell_trades.filter (fun t => decide (t.realized_pnl > 0))).length
    let win_rate :=
      if sell_trades.length ≠ 0 then (win_count : ℚ) / (sell_trades.length : ℚ) else 0
    { start_date := start_date, end_date := end_date,
      initial_capital := initial_capital, final_capital := final_capital,
      total_return := total_return, annualized_return := annualized_return,
      max_drawdown := max_drawdown, win_rate := win_rate,
      trade_count := trades.length, trades := trades, snapshots := snaps }

/-! ### Invariant predicates from §8 of the spec -/

/-- The ledger invariant: `available_cash ≥ 0 ∧ frozen_cash ≥ 0`. -/
def AssetInv (a : Asset) : Prop := 0 ≤ a.available_cash ∧ 0 ≤ a.frozen_cash

/-- The position invariant: `0 ≤ available_volume ≤ total_volume` and
`total_volume == 0 ⇒ average_cost == 0`. -/
def PosInv (p : Position) : Prop :=
  0 ≤ p.available_volume ∧ p.available_volume ≤ p.total_volume ∧
  (p.total_volume = 0 → p.average_cost = 0)

/-- The three business-rejection messages of `place_order`. -/
def GateMsg (e : String) : Prop :=
  e = "Insufficient liquidity" ∨ e = "Insufficient funds" ∨ e = "Insufficient position"

/-! ### Concrete fixtures (the literal inputs of the spec scenarios) -/

/-- The S1 bar: close 10.00, volume 10,000. -/
def bar10 : Bar :=
  { symbol := "600000.SH", timeframe := Timeframe.day1, timestamp := 1,
    open_ := 10, high := 10.5, low := 9.5, close := 10, volume := 10000 }

/-- A bar whose close is one cent (volume ample), used to realize a SELL
whose proceeds are below the 5.00 commission floor. -/
def barLow : Bar :=
  { symbol := "600000.SH", timeframe := Timeframe.day1, timestamp := 2,
    open_ := 0.01, high := 0.01, low := 0.01, close := 0.01, volume := 10000 }

/-- The S1 order: market BUY of 100 shares. -/
def buy100 : Order :=
  { order_id := "b1", account_id := "t", ticker := "600000.SH",
    direction := OrderDirection.buy, price := 10, volume := 100,
    type := OrderType.market, status := OrderStatus.created,
    traded_volume := 0, traded_price := 0, created_at := 1, updated_at := 1, remark := "" }

/-- A market BUY of 500 shares (a valid lot multiple). -/
def buy500 : Order := { buy100 with volume := 500, order_id := "b5" }

/-- A market SELL of 100 shares. -/
def sell100 : Order :=
  { order_id := "s1", account_id := "t", ticker := "600000.SH",
    direction := OrderDirection.sell, price := 10, volume := 100,
    type := OrderType.market, status := OrderStatus.created,
    traded_volume := 0, traded_price := 0, created_at := 3, updated_at := 3, remark := "" }

/-- An odd-lot market SELL of 50 shares (a valid SELL under the A-share
rule quoted by the spec). -/
def sell50 : Order := { sell100 with volume := 50, order_id := "s50" }

/-- A reachable state holding 500 settled shares of 600000.SH: buy 500
against the S1 bar, then run daily settlement (T+1 promotion). -/
def hold500 : GatewayState :=
  daily_settlement (place_order (initGateway 1000000) buy500 [bar10] 1).resState 2

/-- The run refuting the ledger non-negativity claim: start from capital
1006.02 ≥ 0, BUY 100 at close 10.00 (spending 1006.01001), settle T+1,
then SELL the 100 shares at close 0.01 — the sale proceeds 0.999 are
below the 5.00 minimum commission, so the credited income is negative. -/
def sellBelowFees : PlaceResult :=
  place_order
    (daily_settlement (place_order (initGateway 1006.02) buy100 [bar10] 1).resState 2)
    { sell100 with price := 0.01 } [barLow] 3

/-- A gateway state holding one PARTIAL_FILLED BUY order with frozen
cash, exercising settlement step 1 (the spec makes step 1 mandatory
precisely for orders that survive into settlement). -/
def stPartial : GatewayState :=
  { asset := { account_id := "MOCK_ACCOUNT", total_asset := 1000000,
               available_cash := 998900, frozen_cash := 1100, updated_at := 1 },
    positions := [("600000.SH",
      { account_id := "MOCK_ACCOUNT", ticker := "600000.SH", total_volume := 100,
        available_volume := 0, average_cost := 10.01, updated_at := 1 })],
    trade_records := [],
    orders := [("o1",
      { order_id := "o1", account_id := "MOCK_ACCOUNT", ticker := "600000.SH",
        direction := OrderDirection.buy, price := 10, volume := 200,
        type := OrderType.limit, status := OrderStatus.partialFilled,
        traded_volume := 100, traded_price := 10.01, created_at := 1, updated_at := 1,
        remark := "" })] }

/-- A market state storing exactly one bar, visible at the current clock. -/
def mOneBar : MarketState :=
  { data := [("600000.SH", [(Timeframe.day1, [bar10])])], current_time := 5 }

/-! ### Theorems -/

/-! #### Error-message classification: only the three pre-check gates of
`place_order` emit the business-rejection messages; every error raised by
an entity method or by the fill machinery is a different string. -/

lemma gateMsg_not_freeze (a : Asset) (x : ℚ) (now : ℕ) (e : String)
    (h : a.freeze_cash x now = Except.error e) : ¬ GateMsg e := by
  unfold Asset.freeze_cash at h
  split at h
  · cases h
    simp [GateMsg]
  split at h
  · cases h
    simp [GateMsg]
  · cases h

lemma gateMsg_not_deduct (a : Asset) (x : ℚ) (now : ℕ) (e : String)
    (h : a.deduct_frozen_cash x now = Except.error e) : ¬ GateMsg e := by
  unfold Asset.deduct_frozen_cash at h
  split at h
  · cases h
    simp [GateMsg]
  split at h
  · cases h
    simp [GateMsg]
  · cases h

lemma gateMsg_not_buy_fill (p : Position) (v : ℤ) (pr : ℚ) (now : ℕ) (e : String)
    (h : p.on_buy_filled v pr now = Except.error e) : ¬ GateMsg e := by
  unfold Position.on_buy_filled at h
  split at h
  · cases h
    simp [GateMsg]
  split at h
  · cases h
    simp [GateMsg]
  · cases h

lemma gateMsg_not_sell_fill (p : Position) (v : ℤ) (pr : ℚ) (now : ℕ) (e : String)
    (h : p.on_sell_filled v pr now = Except.error e) : ¬ GateMsg e := by
  unfold Position.on_sell_filled at h
  split at h
  · cases h
    simp [GateMsg]
  split at h
  · cases h
    simp [GateMsg]
  · cases h

lemma gateMsg_not_order_fill (o : Order) (v : ℤ) (pr : ℚ) (now : ℕ) (e : String)
    (h : o.on_fill v pr now = Except.error e) : ¬ GateMsg e := by
  unfold Order.on_fill at h
  split at h
  · cases h
    simp [GateMsg]
  split at h
  · cases h
  dsimp only at h
  split at h
  · cases h
    simp [GateMsg]
  · cases h

lemma gateMsg_not_submit (o : Order) (now : ℕ) (e : String)
    (h : o.submit now = Except.error e) : ¬ GateMsg e := by
  unfold Order.submit at h
  split at h
  · cases h
    simp [GateMsg]
  · cases h

/-- C7: scenario S1. With initial cash 1,000,000.00, a single bar with
close=10.00 and volume=10,000, and a market BUY of 100 shares:
exec_price = 10.01, amount = 1001.00, commission = max(0.25025, 5) = 5.00,
transfer_fee = 0.01001, available_cash becomes 1,000,000 − 1006.01001
(within 0.01 of 1,000,000 − 1006.01), and the resulting position is
total=100, available=0, average_cost=10.01. -/
theorem C7_single_buy_fees :
    (10 : ℚ) * (1 + slippage_buy) = 10.01 ∧
    (10.01 : ℚ) * ((100 : ℤ) : ℚ) = 1001 ∧
    calculate_costs 10.01 100 OrderDirection.buy = (1006.01001, 5, 0, 0.01001) ∧
    (place_order (initGateway 1000000) buy100 [bar10] 1).resState.asset.available_cash
      = 1000000 - 1006.01001 ∧
    |(place_order (initGateway 1000000) buy100 [bar10] 1).resState.asset.available_cash
      - (1000000 - 1006.01)| ≤ 0.01 ∧
    assocGet "600000.SH"
        (place_order (initGateway 1000000) buy100 [bar10] 1).resState.positions
      = some { account_id := "MOCK_ACCOUNT", ticker := "600000.SH", total_volume := 100,
               available_volume := 0, average_cost := 10.01, updated_at := 1 } := by
  have habs : ∀ x y c : ℚ, x - y ≤ c → y - x ≤ c → |x - y| ≤ c := by
    intro x y c h1 h2
    rw [abs_sub_le_iff]
    exact ⟨h1, h2⟩
  refine ⟨by norm_num [slippage_buy], by norm_num, ?_, ?_, habs _ _ _ ?_ ?_, ?_⟩ <;>
    norm_num +decide [place_order, place_order_exec, simulate_fill, calculate_costs,
      initGateway, buy100, bar10, max_fill_of, pyInt, sell_blocked, assocGet, assocSet,
      assocErase, Asset.freeze_cash, Asset.deduct_frozen_cash, Position.on_buy_filled,
      Order.submit, Order.on_fill, Except.map, slippage_buy, slippage_sell, capacity_limit,
      commission_rate, min_commission, stamp_duty_rate, transfer_fee_rate,
      PlaceResult.resState]

/-- C8: with an empty snapshot list the evaluator returns all-zero
metrics, `final_capital = initial_capital` and `trade_count = |trades|`,
whatever power function, dates, capital and trades it is given. -/
theorem C8_empty_snapshots (pow_fn : ℚ → ℚ → ℚ) (start_date end_date : ℕ)
    (initial_capital : ℚ) (trades : List TradeRecord) :
    evaluate pow_fn start_date end_date initial_capital [] trades =
      { start_date := start_date, end_date := end_date,
        initial_capital := initial_capital, final_capital := initial_capital,
        total_return := 0, annualized_return := 0, max_drawdown := 0, win_rate := 0,
        trade_count := trades.length, trades := trades, snapshots := [] } := rfl

/-- C10: calling `on_fill` with a non-positive fill volume while the
order is SUBMITTED or PARTIAL_FILLED raises no error and returns the
order with every field unchanged. -/
theorem C10_nonpositive_fill_noop (o : Order) (v : ℤ) (p : ℚ) (now : ℕ)
    (h1 : o.status = OrderStatus.submitted ∨ o.status = OrderStatus.partialFilled)
    (h2 : v ≤ 0) : o.on_fill v p now = Except.ok o := by
  unfold Order.on_fill
  rcases h1 with h | h <;> rw [h] <;> simp [h2]

/-- Witness for C10 at a concrete SUBMITTED order and fill volume 0. -/
theorem C10_witness :
    Order.on_fill { buy100 with status := OrderStatus.submitted } 0 7 9
      = Except.ok { buy100 with status := OrderStatus.submitted } :=
  C10_nonpositive_fill_noop { buy100 with status := OrderStatus.submitted } 0 7 9
    (Or.inl rfl) (by norm_num)

/-- C4: `on_buy_filled`, `on_sell_filled` (under its precondition
`volume ≤ available_volume`, which its own guard also enforces) and
`settle_t_plus_1` all preserve `0 ≤ available_volume ≤ total_volume` and
`total_volume = 0 → average_cost = 0`. -/
theorem C4_position_invariant :
    (∀ (p : Position) (v : ℤ) (pr : ℚ) (now : ℕ) (p1 : Position),
      p.on_buy_filled v pr now = Except.ok p1 → PosInv p → PosInv p1) ∧
    (∀ (p : Position) (v : ℤ) (pr : ℚ) (now : ℕ) (p1 : Position),
      v ≤ p.available_volume → p.on_sell_filled v pr now = Except.ok p1 →
      PosInv p → PosInv p1) ∧
    (∀ (p : Position) (now : ℕ), PosInv p → PosInv (p.settle_t_plus_1 now)) := by
  refine ⟨?_, ?_, ?_⟩
  · intro p v pr now p1 hok hinv
    unfold Position.on_buy_filled at hok
    split at hok
    · exact absurd hok (by simp)
    split at hok
    · exact absurd hok (by simp)
    rename_i hv hpr
    obtain ⟨h1, h2, h3⟩ := hinv
    cases hok
    refine ⟨?_, ?_, ?_⟩ <;> dsimp only
    · exact h1
    · omega
    · intro h0
      omega
  · intro p v pr now p1 hpre hok hinv
    unfold Position.on_sell_filled at hok
    split at hok
    · exact absurd hok (by simp)
    split at hok
    · exact absurd hok (by simp)
    rename_i hv havail
    obtain ⟨h1, h2, h3⟩ := hinv
    cases hok
    refine ⟨?_, ?_, ?_⟩ <;> dsimp only
    · omega
    · omega
    · intro h0
      rw [if_pos h0]
  · intro p now hinv
    obtain ⟨h1, h2, h3⟩ := hinv
    exact ⟨by simpa [Position.settle_t_plus_1] using le_trans h1 h2,
      le_refl _, by simpa [Position.settle_t_plus_1] using h3⟩

/-- Witness for C4: buying 100 shares at price 10 into an empty position
yields total=100, available=0, cost=10, satisfying the invariant. -/
theorem C4_witness :
    PosInv { account_id := "A", ticker := "T", total_volume := 100,
             available_volume := 0, average_cost := 10, updated_at := 2 } :=
  C4_position_invariant.1
    { account_id := "A", ticker := "T", total_volume := 0,
      available_volume := 0, average_cost := 0, updated_at := 1 } 100 10 2 _
    (by norm_num [Position.on_buy_filled]) (by norm_num [PosInv])



lemma gateMsg_not_simulate (st : GatewayState) (o : Order) (p : ℚ) (v : ℤ)
    (cm tx tf fa : ℚ) (now : ℕ) (st2 : GatewayState) (o2 : Order) (e : String)
    (h : simulate_fill st o p v cm tx tf fa now = (st2, o2, some e)) : ¬ GateMsg e := by
  unfold simulate_fill at h
  dsimp only at h
  split at h
  next e1 heq =>
    cases h
    split at heq
    · cases hded : st.asset.deduct_frozen_cash fa now with
      | error e2 =>
        rw [hded] at heq
        cases heq
        exact gateMsg_not_deduct _ _ _ _ hded
      | ok a1 =>
        rw [hded] at heq
        cases heq
    · cases heq
  next asset1 heq =>
    split at h
    next e1 heq2 =>
      cases h
      split at heq2
      · cases hbf : Position.on_buy_filled _ v p now with
        | error e2 =>
          rw [hbf] at heq2
          cases heq2
          exact gateMsg_not_buy_fill _ _ _ _ _ hbf
        | ok p1 =>
          rw [hbf] at heq2
          cases heq2
      · cases hsf : Position.on_sell_filled _ v p now with
        | error e2 =>
          rw [hsf] at heq2
          cases heq2
          exact gateMsg_not_sell_fill _ _ _ _ _ hsf
        | ok p1 =>
          rw [hsf] at heq2
          cases heq2
    next pr heq2 =>
      split at h
      next e1 heq3 =>
        cases h
        exact gateMsg_not_order_fill _ _ _ _ _ heq3
      next o1 heq3 =>
        cases h



lemma simulate_fill_ok_buy (st : GatewayState) (o : Order) (p : ℚ) (v : ℤ)
    (cm tx tf fa : ℚ) (now : ℕ) (st2 : GatewayState) (o2 : Order)
    (hdir : o.direction = OrderDirection.buy)
    (h : simulate_fill st o p v cm tx tf fa now = (st2, o2, none)) :
    ∃ a1, st.asset.deduct_frozen_cash fa now = Except.ok a1 ∧
      st2.asset = { a1 with
        available_cash := a1.available_cash - (p * (v : ℚ) + cm + tx + tf - fa),
        total_asset := a1.total_asset - (cm + tx + tf) } ∧
      (0 < v → o2.traded_volume = o.traded_volume + v) := by
  unfold simulate_fill at h
  dsimp only at h
  rw [hdir] at h
  simp only [reduceIte] at h
  split at h
  next e1 heq =>
    cases h
  next asset1 heq =>
    cases hded : st.asset.deduct_frozen_cash fa now with
    | error e2 =>
      rw [hded] at heq
      cases heq
    | ok a1 =>
      rw [hded] at heq
      cases heq
      refine ⟨a1, rfl, ?_⟩
      split at h
      next e1 heq2 =>
        cases h
      next pr heq2 =>
        cases hbf : Position.on_buy_filled _ v p now with
        | error e2 =>
          rw [hbf] at heq2
          cases heq2
        | ok p1 =>
          rw [hbf] at heq2
          cases heq2
          split at h
          next e1 heq3 =>
            cases h
          next o1 heq3 =>
            injection h with h1 h23
            injection h23 with h2 h3
            subst h1
            subst h2
            constructor
            · dsimp only
              split <;> split <;> rfl
            · intro hv
              unfold Order.on_fill at heq3
              split at heq3
              · cases heq3
              split at heq3
              · omega
              dsimp only at heq3
              split at heq3
              · cases heq3
              · cases heq3
                split <;> split <;> rfl



lemma simulate_fill_ok_sell (st : GatewayState) (o : Order) (p : ℚ) (v : ℤ)
    (cm tx tf fa : ℚ) (now : ℕ) (st2 : GatewayState) (o2 : Order)
    (hdir : o.direction = OrderDirection.sell)
    (h : simulate_fill st o p v cm tx tf fa now = (st2, o2, none)) :
    st2.asset = { st.asset with
      available_cash := st.asset.available_cash + (p * (v : ℚ) - cm - tx - tf),
      total_asset := st.asset.total_asset - (cm + tx + tf) } ∧
    (0 < v → o2.traded_volume = o.traded_volume + v) := by
  unfold simulate_fill at h
  dsimp only at h
  rw [hdir] at h
  simp only [reduceCtorEq, ite_false] at h
  split at h
  next e1 heq2 =>
    cases h
  next pr heq2 =>
    cases hsf : Position.on_sell_filled _ v p now with
    | error e2 =>
      rw [hsf] at heq2
      cases heq2
    | ok p1 =>
      rw [hsf] at heq2
      cases heq2
      split at h
      next e1 heq3 =>
        cases h
      next o1 heq3 =>
        injection h with h1 h23
        injection h23 with h2 h3
        subst h1
        subst h2
        constructor
        · dsimp only
          split <;> split <;> rfl
        · intro hv
          unfold Order.on_fill at heq3
          split at heq3
          · cases heq3
          split at heq3
          · omega
          dsimp only at heq3
          split at heq3
          · cases heq3
          · cases heq3
            split <;> split <;> rfl



lemma gateMsg_not_exec (st : GatewayState) (o1 : Order) (ep : ℚ) (fv : ℤ)
    (cm tx tf tc : ℚ) (now : ℕ) (st1 : GatewayState) (o2 : Order) (e : String)
    (h : place_order_exec st o1 ep fv cm tx tf tc now = PlaceResult.err st1 o2 e) :
    ¬ GateMsg e := by
  unfold place_order_exec at h
  dsimp only at h
  split at h
  next e1 heq =>
    injection h with h1 h2 h3
    subst h3
    split at heq
    · exact gateMsg_not_freeze _ _ _ _ heq
    · cases heq
  next asset1 heq =>
    split at h
    next st3 o3 heq2 =>
      cases h
    next st3 o3 e1 heq2 =>
      have hsim := gateMsg_not_simulate _ _ _ _ _ _ _ _ _ _ _ _ heq2
      split at h <;> split at h
      case isTrue.isTrue =>
        split at h
        next a1 heq3 =>
          injection h with h1 h2 h3
          subst h3
          exact hsim
        next e2 heq3 =>
          injection h with h1 h2 h3
          subst h3
          exact gateMsg_not_deduct _ _ _ _ heq3
      case isTrue.isFalse =>
        injection h with h1 h2 h3
        subst h3
        exact hsim
      case isFalse.isTrue =>
        split at h
        next a1 heq3 =>
          injection h with h1 h2 h3
          subst h3
          exact hsim
        next e2 heq3 =>
          injection h with h1 h2 h3
          subst h3
          exact gateMsg_not_deduct _ _ _ _ heq3
      case isFalse.isFalse =>
        injection h with h1 h2 h3
        subst h3
        exact hsim

lemma place_order_exec_ok_buy (st : GatewayState) (o1 : Order) (ep : ℚ) (fv : ℤ)
    (cm tx tf tc : ℚ) (now : ℕ) (st1 : GatewayState) (o2 : Order) (oid : String)
    (hdir : o1.direction = OrderDirection.buy)
    (h : place_order_exec st o1 ep fv cm tx tf tc now = PlaceResult.ok st1 o2 oid) :
    st1.asset.available_cash = st.asset.available_cash - (ep * (fv : ℚ) + cm + tx + tf) ∧
    st1.asset.frozen_cash = st.asset.frozen_cash ∧
    0 < tc ∧ tc ≤ st.asset.available_cash ∧
    (0 < fv → o2.traded_volume = o1.traded_volume + fv) := by
  unfold place_order_exec at h
  dsimp only at h
  rw [hdir] at h
  simp only [reduceIte] at h
  split at h
  next e1 heq =>
    cases h
  next af heq =>
    split at h
    next st3 o3 heq2 =>
      injection h with h1 h2 h3
      subst h1
      subst h2
      obtain ⟨a1, hded, hasset, htraded⟩ :=
        simulate_fill_ok_buy _ _ _ _ _ _ _ _ _ _ _ hdir heq2
      have hfr2 := heq
      unfold Asset.freeze_cash at hfr2
      split at hfr2
      · cases hfr2
      split at hfr2
      · cases hfr2
      rename_i hpos hle
      cases hfr2
      have hded2 := hded
      unfold Asset.deduct_frozen_cash at hded2
      split at hded2
      · cases hded2
      split at hded2
      · cases hded2
      cases hded2
      refine ⟨?_, ?_, by linarith, by linarith, htraded⟩
      · rw [hasset]
        dsimp only
        ring
      · rw [hasset]
        dsimp only
        ring
    next st3 o3 e1 heq2 =>
      split at h
      · split at h <;> cases h
      · cases h

lemma place_order_exec_ok_sell (st : GatewayState) (o1 : Order) (ep : ℚ) (fv : ℤ)
    (cm tx tf tc : ℚ) (now : ℕ) (st1 : GatewayState) (o2 : Order) (oid : String)
    (hdir : o1.direction = OrderDirection.sell)
    (h : place_order_exec st o1 ep fv cm tx tf tc now = PlaceResult.ok st1 o2 oid) :
    st1.asset.available_cash = st.asset.available_cash + (ep * (fv : ℚ) - cm - tx - tf) ∧
    st1.asset.frozen_cash = st.asset.frozen_cash ∧
    (0 < fv → o2.traded_volume = o1.traded_volume + fv) := by
  unfold place_order_exec at h
  dsimp only at h
  rw [hdir] at h
  simp only [reduceCtorEq, ite_false] at h
  split at h
  next st3 o3 heq2 =>
    injection h with h1 h2 h3
    subst h1
    subst h2
    obtain ⟨hasset, htraded⟩ := simulate_fill_ok_sell _ _ _ _ _ _ _ _ _ _ _ hdir heq2
    refine ⟨?_, ?_, htraded⟩
    · rw [hasset]
    · rw [hasset]
  next st3 o3 e1 heq2 =>
    split at h
    · split at h <;> cases h
    · cases h



lemma place_order_liquidity_reject (st : GatewayState) (order : Order) (bar : Bar)
    (rest : List Bar) (now : ℕ) (hvol : 0 < order.volume)
    (hliq : min order.volume (max_fill_of bar) < 100) :
    place_order st order (bar :: rest) now =
      PlaceResult.err st { order with status := OrderStatus.rejected }
        "Insufficient liquidity" := by
  unfold place_order
  rw [if_neg (by omega)]
  dsimp only
  rw [if_pos hliq]

lemma place_order_funds_reject (st : GatewayState) (order : Order) (bar : Bar)
    (rest : List Bar) (now : ℕ) (hvol : 0 < order.volume)
    (hdir : order.direction = OrderDirection.buy)
    (hliq : ¬ min order.volume (max_fill_of bar) < 100)
    (hcash : st.asset.available_cash <
      (calculate_costs (bar.close * (1 + slippage_buy))
        (min order.volume (max_fill_of bar)) OrderDirection.buy).1) :
    place_order st order (bar :: rest) now =
      PlaceResult.err st { order with status := OrderStatus.rejected }
        "Insufficient funds" := by
  unfold place_order
  rw [if_neg (by omega)]
  dsimp only
  rw [hdir]
  simp only [reduceIte]
  rw [if_neg hliq, if_pos ⟨trivial, hcash⟩]

lemma place_order_position_reject (st : GatewayState) (order : Order) (bar : Bar)
    (rest : List Bar) (now : ℕ) (hvol : 0 < order.volume)
    (hdir : order.direction = OrderDirection.sell)
    (hliq : ¬ min order.volume (max_fill_of bar) < 100)
    (hblock : sell_blocked st order.ticker (min order.volume (max_fill_of bar)) = true) :
    place_order st order (bar :: rest) now =
      PlaceResult.err st { order with status := OrderStatus.rejected }
        "Insufficient position" := by
  unfold place_order
  rw [if_neg (by omega)]
  dsimp only
  rw [hdir]
  simp only [reduceCtorEq, ite_false, false_and, if_false]
  rw [if_neg hliq, if_pos ⟨trivial, hblock⟩]

lemma place_order_gates_passed (st : GatewayState) (order : Order) (bar : Bar)
    (rest : List Bar) (now : ℕ) (hvol : 0 < order.volume)
    (hliq : ¬ min order.volume (max_fill_of bar) < 100)
    (hfunds : ¬ (order.direction = OrderDirection.buy ∧ st.asset.available_cash <
      (calculate_costs
        (if order.direction = OrderDirection.buy then bar.close * (1 + slippage_buy)
         else bar.close * (1 - slippage_sell))
        (min order.volume (max_fill_of bar)) order.direction).1))
    (hpos : ¬ (order.direction = OrderDirection.sell ∧
      sell_blocked st order.ticker (min order.volume (max_fill_of bar)) = true)) :
    place_order st order (bar :: rest) now =
      (match order.submit now with
       | Except.error e => PlaceResult.err st order e
       | Except.ok order1 =>
          place_order_exec st order1
            (if order.direction = OrderDirection.buy then bar.close * (1 + slippage_buy)
             else bar.close * (1 - slippage_sell))
            (min order.volume (max_fill_of bar))
            (calculate_costs
              (if order.direction = OrderDirection.buy then bar.close * (1 + slippage_buy)
               else bar.close * (1 - slippage_sell))
              (min order.volume (max_fill_of bar)) order.direction).2.1
            (calculate_costs
              (if order.direction = OrderDirection.buy then bar.close * (1 + slippage_buy)
               else bar.close * (1 - slippage_sell))
              (min order.volume (max_fill_of bar)) order.direction).2.2.1
            (calculate_costs
              (if order.direction = OrderDirection.buy then bar.close * (1 + slippage_buy)
               else bar.close * (1 - slippage_sell))
              (min order.volume (max_fill_of bar)) order.direction).2.2.2
            (calculate_costs
              (if order.direction = OrderDirection.buy then bar.close * (1 + slippage_buy)
               else bar.close * (1 - slippage_sell))
              (min order.volume (max_fill_of bar)) order.direction).1 now) := by
  unfold place_order
  rw [if_neg (by omega)]
  dsimp only
  rw [if_neg hliq, if_neg hfunds, if_neg hpos]



/-- C2: a BUY order that passes the volume and liquidity gates is rejected
with "Insufficient funds" exactly when `available_cash < estimated_total`
(estimated_total = exec_price · fill_volume + estimated commission +
estimated transfer fee; the stamp-duty term of the BUY estimate is zero),
and on this rejection the gateway state — available_cash, frozen_cash,
positions map, trade log and orders map — is returned unchanged. -/
theorem C2_insufficient_funds (st : GatewayState) (order : Order) (bar : Bar)
    (rest : List Bar) (now : ℕ)
    (hdir : order.direction = OrderDirection.buy) (hvol : 0 < order.volume)
    (hliq : 100 ≤ min order.volume (max_fill_of bar)) :
    ((place_order st order (bar :: rest) now).errMsg = some "Insufficient funds" ↔
      st.asset.available_cash <
        bar.close * (1 + slippage_buy) * ((min order.volume (max_fill_of bar) : ℤ) : ℚ)
          + (calculate_costs (bar.close * (1 + slippage_buy))
              (min order.volume (max_fill_of bar)) OrderDirection.buy).2.1
          + (calculate_costs (bar.close * (1 + slippage_buy))
              (min order.volume (max_fill_of bar)) OrderDirection.buy).2.2.2) ∧
    (st.asset.available_cash <
        bar.close * (1 + slippage_buy) * ((min order.volume (max_fill_of bar) : ℤ) : ℚ)
          + (calculate_costs (bar.close * (1 + slippage_buy))
              (min order.volume (max_fill_of bar)) OrderDirection.buy).2.1
          + (calculate_costs (bar.close * (1 + slippage_buy))
              (min order.volume (max_fill_of bar)) OrderDirection.buy).2.2.2 →
      place_order st order (bar :: rest) now =
        PlaceResult.err st { order with status := OrderStatus.rejected }
          "Insufficient funds") := by
  have hc1 : (calculate_costs (bar.close * (1 + slippage_buy))
      (min order.volume (max_fill_of bar)) OrderDirection.buy).1
      = bar.close * (1 + slippage_buy) * ((min order.volume (max_fill_of bar) : ℤ) : ℚ)
        + (calculate_costs (bar.close * (1 + slippage_buy))
            (min order.volume (max_fill_of bar)) OrderDirection.buy).2.1
        + (calculate_costs (bar.close * (1 + slippage_buy))
            (min order.volume (max_fill_of bar)) OrderDirection.buy).2.2.2 := by
    simp only [calculate_costs, reduceCtorEq, ite_false, reduceIte]
    ring
  have hback : st.asset.available_cash <
      bar.close * (1 + slippage_buy) * ((min order.volume (max_fill_of bar) : ℤ) : ℚ)
        + (calculate_costs (bar.close * (1 + slippage_buy))
            (min order.volume (max_fill_of bar)) OrderDirection.buy).2.1
        + (calculate_costs (bar.close * (1 + slippage_buy))
            (min order.volume (max_fill_of bar)) OrderDirection.buy).2.2.2 →
      place_order st order (bar :: rest) now =
        PlaceResult.err st { order with status := OrderStatus.rejected }
          "Insufficient funds" := by
    intro hlt
    exact place_order_funds_reject st order bar rest now hvol hdir (by omega)
      (by rw [hc1]; exact hlt)
  refine ⟨⟨?_, fun hlt => by rw [hback hlt]; rfl⟩, hback⟩
  intro hmsg
  by_contra hge
  rw [place_order_gates_passed st order bar rest now hvol (by omega)
    ?hf ?hp] at hmsg
  case hf =>
    rw [hdir]
    simp only [reduceIte]
    intro hand
    rw [hc1] at hand
    exact hge hand.2
  case hp =>
    rw [hdir]
    simp
  cases hsub : order.submit now with
  | error e =>
    rw [hsub] at hmsg
    simp only [PlaceResult.errMsg] at hmsg
    cases hmsg
    exact gateMsg_not_submit _ _ _ hsub (Or.inr (Or.inl rfl))
  | ok order1 =>
    rw [hsub] at hmsg
    dsimp only at hmsg
    cases hres : place_order_exec st order1
        (if order.direction = OrderDirection.buy then bar.close * (1 + slippage_buy)
         else bar.close * (1 - slippage_sell))
        (min order.volume (max_fill_of bar))
        (calculate_costs
          (if order.direction = OrderDirection.buy then bar.close * (1 + slippage_buy)
           else bar.close * (1 - slippage_sell))
          (min order.volume (max_fill_of bar)) order.direction).2.1
        (calculate_costs
          (if order.direction = OrderDirection.buy then bar.close * (1 + slippage_buy)
           else bar.close * (1 - slippage_sell))
          (min order.volume (max_fill_of bar)) order.direction).2.2.1
        (calculate_costs
          (if order.direction = OrderDirection.buy then bar.close * (1 + slippage_buy)
           else bar.close * (1 - slippage_sell))
          (min order.volume (max_fill_of bar)) order.direction).2.2.2
        (calculate_costs
          (if order.direction = OrderDirection.buy then bar.close * (1 + slippage_buy)
           else bar.close * (1 - slippage_sell))
          (min order.volume (max_fill_of bar)) order.direction).1 now with
    | ok s1 o2 oid =>
      rw [hres] at hmsg
      cases hmsg
    | err s1 o2 e =>
      rw [hres] at hmsg
      simp only [PlaceResult.errMsg] at hmsg
      cases hmsg
      exact gateMsg_not_exec _ _ _ _ _ _ _ _ _ _ _ _ hres (Or.inr (Or.inl rfl))



lemma submit_ok_eq (o : Order) (now : ℕ) (o1 : Order)
    (h : o.submit now = Except.ok o1) :
    o.status = OrderStatus.created ∧
    o1 = { o with status := OrderStatus.submitted, updated_at := now } := by
  unfold Order.submit at h
  split at h
  · cases h
  · rename_i hs
    cases h
    exact ⟨by simpa using hs, rfl⟩

lemma calculate_costs_buy_total (p : ℚ) (v : ℤ) :
    (calculate_costs p v OrderDirection.buy).1 =
      p * (v : ℚ) + (calculate_costs p v OrderDirection.buy).2.1
        + (calculate_costs p v OrderDirection.buy).2.2.1
        + (calculate_costs p v OrderDirection.buy).2.2.2 := by
  simp only [calculate_costs, reduceCtorEq, ite_false, reduceIte]
  ring

lemma calculate_costs_sell_total (p : ℚ) (v : ℤ) :
    (calculate_costs p v OrderDirection.sell).1 =
      p * (v : ℚ) - (calculate_costs p v OrderDirection.sell).2.1
        - (calculate_costs p v OrderDirection.sell).2.2.1
        - (calculate_costs p v OrderDirection.sell).2.2.2 := by
  simp only [calculate_costs, reduceCtorEq, ite_false, reduceIte]
  ring

lemma assocGet_mem [DecidableEq α] (k : α) (l : List (α × β)) (v : β)
    (h : assocGet k l = some v) : (k, v) ∈ l := by
  induction l with
  | nil => exact absurd h (by simp [assocGet])
  | cons kv rest ih =>
    obtain ⟨k1, v1⟩ := kv
    rw [assocGet] at h
    split at h
    · rename_i heq
      subst heq
      cases h
      exact List.mem_cons_self _ _
    · exact List.mem_cons_of_mem _ (ih h)

lemma pyTail_sublist (limit : ℤ) (l : List α) : (pyTail limit l).Sublist l := by
  unfold pyTail
  split <;> exact List.drop_sublist _ _

lemma pyTail_length_le (limit : ℤ) (l : List α) (h : 1 ≤ limit) :
    ((pyTail limit l).length : ℤ) ≤ limit := by
  unfold pyTail
  rw [if_pos (by omega), List.length_drop]
  omega

lemma ediv_floor_hundred (x : ℚ) : Int.ediv ⌊x⌋ 100 = ⌊x / 100⌋ := by
  have h1 : (⌊x⌋ : ℚ) ≤ x := Int.floor_le x
  have h2 : x < ⌊x⌋ + 1 := Int.lt_floor_add_one x
  have e1 := Int.emod_nonneg ⌊x⌋ (by norm_num : (100:ℤ) ≠ 0)
  have e2 := Int.emod_lt_of_pos ⌊x⌋ (by norm_num : (0:ℤ) < 100)
  have e3 := Int.ediv_add_emod ⌊x⌋ 100
  have hdiv : (⌊x⌋ : ℤ) / 100 = Int.ediv ⌊x⌋ 100 := rfl
  rw [hdiv] at e3
  have hb1 : 100 * Int.ediv ⌊x⌋ 100 ≤ ⌊x⌋ := by omega
  have hb2 : ⌊x⌋ < 100 * (Int.ediv ⌊x⌋ 100 + 1) := by omega
  symm
  rw [Int.floor_eq_iff]
  constructor
  · rw [le_div_iff₀ (by norm_num : (0:ℚ) < 100)]
    calc ((Int.ediv ⌊x⌋ 100 : ℤ) : ℚ) * 100 = ((100 * Int.ediv ⌊x⌋ 100 : ℤ) : ℚ) := by
          push_cast
          ring
    _ ≤ (⌊x⌋ : ℚ) := by exact_mod_cast hb1
    _ ≤ x := h1
  · rw [div_lt_iff₀ (by norm_num : (0:ℚ) < 100)]
    calc x < ⌊x⌋ + 1 := h2
    _ ≤ ((100 * (Int.ediv ⌊x⌋ 100 + 1) : ℤ) : ℚ) := by
          push_cast
          exact_mod_cast by exact_mod_cast Int.add_one_le_iff.mpr hb2
    _ = ((Int.ediv ⌊x⌋ 100 : ℤ) : ℚ) * 100 + 1 * 100 := by
          push_cast
          ring
    _ = (Int.ediv ⌊x⌋ 100 + 1) * 100 := by ring

lemma max_fill_spec (bar : Bar) (h : 0 ≤ bar.volume) :
    max_fill_of bar = ⌊bar.volume * capacity_limit / 100⌋ * 100 := by
  unfold max_fill_of pyInt
  rw [if_pos (mul_nonneg h (by norm_num [capacity_limit])), ediv_floor_hundred]



lemma gateMsg_not_exec_msg (st : GatewayState) (o1 : Order) (ep : ℚ) (fv : ℤ)
    (cm tx tf tc : ℚ) (now : ℕ) (e : String)
    (h : (place_order_exec st o1 ep fv cm tx tf tc now).errMsg = some e) : ¬ GateMsg e := by
  cases hres : place_order_exec st o1 ep fv cm tx tf tc now with
  | ok s1 o2 oid =>
    rw [hres] at h
    cases h
  | err s1 o2 e2 =>
    rw [hres] at h
    simp only [PlaceResult.errMsg] at h
    cases h
    exact gateMsg_not_exec _ _ _ _ _ _ _ _ _ _ _ _ hres

/-- C1 (amended): the order is REJECTED with "insufficient liquidity"
exactly when `min(order.volume, max_fill) < 100` — not when
`max_fill < 100`: an odd-lot SELL (volume < 100) is rejected however
large `max_fill` is (see the counterexample). When
`min(order.volume, max_fill) ≥ 100` the liquidity rejection cannot
happen and a successful call fills exactly
`min(order.volume, max_fill)` shares; for non-negative bar volume
`max_fill = floor(bar.volume · 0.10 / 100) · 100` as the spec states. -/
theorem C1_amended (st : GatewayState) (order : Order) (bar : Bar) (rest : List Bar)
    (now : ℕ) (hvol : 0 < order.volume) :
    (min order.volume (max_fill_of bar) < 100 →
      place_order st order (bar :: rest) now =
        PlaceResult.err st { order with status := OrderStatus.rejected }
          "Insufficient liquidity") ∧
    (100 ≤ min order.volume (max_fill_of bar) →
      (place_order st order (bar :: rest) now).errMsg ≠ some "Insufficient liquidity" ∧
      (∀ (st1 : GatewayState) (o1 : Order) (oid : String),
        place_order st order (bar :: rest) now = PlaceResult.ok st1 o1 oid →
        o1.traded_volume = order.traded_volume + min order.volume (max_fill_of bar))) ∧
    (0 ≤ bar.volume → max_fill_of bar = ⌊bar.volume * capacity_limit / 100⌋ * 100) := by
  refine ⟨fun hlt => place_order_liquidity_reject st order bar rest now hvol hlt,
    fun hge => ⟨?_, ?_⟩, fun hv => max_fill_spec bar hv⟩
  · unfold place_order
    rw [if_neg (by omega)]
    dsimp only
    cases hd : order.direction with
    | buy =>
      simp only [reduceIte, reduceCtorEq, false_and, ite_false]
      rw [if_neg (by omega)]
      split
      · simp [PlaceResult.errMsg]
      cases hsub : order.submit now with
      | error e =>
        dsimp only [PlaceResult.errMsg]
        intro hc
        injection hc with hc2
        subst hc2
        exact gateMsg_not_submit _ _ _ hsub (Or.inl rfl)
      | ok order1 =>
        dsimp only
        intro hc
        exact gateMsg_not_exec_msg _ _ _ _ _ _ _ _ _ _ hc (Or.inl rfl)
    | sell =>
      simp only [reduceIte, reduceCtorEq, false_and, ite_false]
      rw [if_neg (by omega)]
      split
      · simp [PlaceResult.errMsg]
      cases hsub : order.submit now with
      | error e =>
        dsimp only [PlaceResult.errMsg]
        intro hc
        injection hc with hc2
        subst hc2
        exact gateMsg_not_submit _ _ _ hsub (Or.inl rfl)
      | ok order1 =>
        dsimp only
        intro hc
        exact gateMsg_not_exec_msg _ _ _ _ _ _ _ _ _ _ hc (Or.inl rfl)
  · intro st1 o1 oid h
    unfold place_order at h
    rw [if_neg (by omega)] at h
    dsimp only at h
    cases hd : order.direction with
    | buy =>
      rw [hd] at h
      simp only [reduceIte, reduceCtorEq, false_and, ite_false] at h
      rw [if_neg (by omega)] at h
      split at h
      · cases h
      cases hsub : order.submit now with
      | error e =>
        rw [hsub] at h
        cases h
      | ok order1 =>
        rw [hsub] at h
        dsimp only at h
        obtain ⟨hst, heq⟩ := submit_ok_eq _ _ _ hsub
        have htr1 : order1.traded_volume = order.traded_volume := by rw [heq]
        have hdir1 : order1.direction = OrderDirection.buy := by rw [heq]; exact hd
        obtain ⟨h1, h2, h3, h4, h5⟩ :=
          place_order_exec_ok_buy _ _ _ _ _ _ _ _ _ _ _ _ hdir1 h
        rw [h5 (by omega), htr1]
    | sell =>
      rw [hd] at h
      simp only [reduceIte, reduceCtorEq, false_and, ite_false] at h
      rw [if_neg (by omega)] at h
      split at h
      · cases h
      cases hsub : order.submit now with
      | error e =>
        rw [hsub] at h
        cases h
      | ok order1 =>
        rw [hsub] at h
        dsimp only at h
        obtain ⟨hst, heq⟩ := submit_ok_eq _ _ _ hsub
        have htr1 : order1.traded_volume = order.traded_volume := by rw [heq]
        have hdir1 : order1.direction = OrderDirection.sell := by rw [heq]; exact hd
        obtain ⟨h1, h2, h3⟩ :=
          place_order_exec_ok_sell _ _ _ _ _ _ _ _ _ _ _ _ hdir1 h
        rw [h3 (by omega), htr1]



/-- C5 (amended): the Order entity's own methods implement exactly the
§4.3 transitions (submit: CREATED→SUBMITTED; cancel:
SUBMITTED→CANCELED, PARTIAL_FILLED→PARTIAL_CANCELED; reject:
SUBMITTED→REJECTED; on_fill: SUBMITTED/PARTIAL_FILLED→FILLED iff the
order is now fully traded, else PARTIAL_FILLED; anything else errors),
but the engine's rejection gates set status REJECTED by direct
assignment — bypassing `reject()` and never passing through SUBMITTED —
and leave the rejected order out of the stored orders map. -/
theorem C5_amended :
    (∀ (o : Order) (now : ℕ),
      (o.status = OrderStatus.created →
        o.submit now = Except.ok { o with status := OrderStatus.submitted, updated_at := now }) ∧
      (o.status ≠ OrderStatus.created → ∃ e, o.submit now = Except.error e)) ∧
    (∀ (o : Order) (now : ℕ),
      (o.status = OrderStatus.submitted →
        o.cancel now = Except.ok { o with status := OrderStatus.canceled, updated_at := now }) ∧
      (o.status = OrderStatus.partialFilled →
        o.cancel now = Except.ok { o with status := OrderStatus.partialCanceled, updated_at := now }) ∧
      (o.status ≠ OrderStatus.submitted → o.status ≠ OrderStatus.partialFilled →
        ∃ e, o.cancel now = Except.error e)) ∧
    (∀ (o : Order) (r : String) (now : ℕ),
      (o.status = OrderStatus.submitted →
        o.reject r now =
          Except.ok { o with status := OrderStatus.rejected, remark := r, updated_at := now }) ∧
      (o.status ≠ OrderStatus.submitted → ∃ e, o.reject r now = Except.error e)) ∧
    (∀ (o : Order) (v : ℤ) (p : ℚ) (now : ℕ) (o1 : Order),
      o.on_fill v p now = Except.ok o1 → 0 < v →
      (o.status = OrderStatus.submitted ∨ o.status = OrderStatus.partialFilled) ∧
      (o1.status = OrderStatus.filled ∨ o1.status = OrderStatus.partialFilled) ∧
      (o1.status = OrderStatus.filled ↔ o1.traded_volume = o1.volume)) ∧
    (∀ (st : GatewayState) (order : Order) (bar : Bar) (rest : List Bar) (now : ℕ),
      0 < order.volume → min order.volume (max_fill_of bar) < 100 →
      (place_order st order (bar :: rest) now).resOrder.status = OrderStatus.rejected ∧
      (place_order st order (bar :: rest) now).resState = st) := by
  refine ⟨?_, ?_, ?_, ?_, ?_⟩
  · intro o now
    constructor
    · intro h
      unfold Order.submit
      rw [if_neg (by simp [h])]
    · intro h
      unfold Order.submit
      rw [if_pos h]
      exact ⟨_, rfl⟩
  · intro o now
    refine ⟨?_, ?_, ?_⟩
    · intro h
      unfold Order.cancel
      rw [h]
    · intro h
      unfold Order.cancel
      rw [h]
    · intro h1 h2
      unfold Order.cancel
      split
      · rename_i heq
        exact absurd heq h1
      · rename_i heq
        exact absurd heq h2
      · exact ⟨_, rfl⟩
  · intro o r now
    constructor
    · intro h
      unfold Order.reject
      rw [if_neg (by simp [h])]
    · intro h
      unfold Order.reject
      rw [if_pos h]
      exact ⟨_, rfl⟩
  · intro o v p now o1 h hv
    unfold Order.on_fill at h
    split at h
    · cases h
    rename_i hstat
    rw [not_and_or, not_not, not_not] at hstat
    rw [if_neg (by omega)] at h
    dsimp only at h
    split at h
    · cases h
    cases h
    refine ⟨hstat, ?_, ?_⟩
    · dsimp only
      split
      · exact Or.inl rfl
      · exact Or.inr rfl
    · dsimp only
      split
      · rename_i hvol
        simp [hvol]
      · rename_i hvol
        simp [hvol]
  · intro st order bar rest now hvol hliq
    rw [place_order_liquidity_reject st order bar rest now hvol hliq]
    exact ⟨rfl, rfl⟩

/-- C6 (amended): daily settlement leaves the asset ledger untouched (no
unfreezing at all), sets every SUBMITTED or PARTIAL_FILLED order's
status to CANCELED by direct assignment (a PARTIAL_FILLED order ends
CANCELED, not PARTIAL_CANCELED, and `cancel()` is never called), and
then applies `settle_t_plus_1` to every position, after which
`available_volume = total_volume` holds for all positions. -/
theorem C6_amended (st : GatewayState) (now : ℕ) :
    (daily_settlement st now).asset = st.asset ∧
    (daily_settlement st now).orders = st.orders.map (fun kv =>
      if kv.2.status = OrderStatus.submitted ∨ kv.2.status = OrderStatus.partialFilled then
        (kv.1, { kv.2 with status := OrderStatus.canceled })
      else kv) ∧
    (daily_settlement st now).positions =
      st.positions.map (fun kv => (kv.1, kv.2.settle_t_plus_1 now)) ∧
    (∀ kv ∈ (daily_settlement st now).positions, kv.2.available_volume = kv.2.total_volume) := by
  refine ⟨rfl, rfl, rfl, ?_⟩
  intro kv hkv
  unfold daily_settlement cancel_all_open_orders at hkv
  dsimp only at hkv
  rw [List.mem_map] at hkv
  obtain ⟨kv0, hmem, hkveq⟩ := hkv
  rw [← hkveq]
  rfl



/-- C3 (amended): freeze, unfreeze, deduct-frozen and deposit preserve
`available_cash ≥ 0 ∧ frozen_cash ≥ 0`, and so does a successful BUY
fill; a successful SELL fill leaves `frozen_cash` unchanged and adds
exactly `income = exec_price·fill_volume − fees` to `available_cash`, so
the invariant is preserved only when that income is non-negative — a
SELL whose proceeds are below the 5.00 commission floor drives
`available_cash` negative (see the counterexample). -/
theorem C3_amended :
    (∀ (a : Asset) (x : ℚ) (now : ℕ) (a1 : Asset),
      a.freeze_cash x now = Except.ok a1 → AssetInv a → AssetInv a1) ∧
    (∀ (a : Asset) (x : ℚ) (now : ℕ) (a1 : Asset),
      a.unfreeze_cash x now = Except.ok a1 → AssetInv a → AssetInv a1) ∧
    (∀ (a : Asset) (x : ℚ) (now : ℕ) (a1 : Asset),
      a.deduct_frozen_cash x now = Except.ok a1 → AssetInv a → AssetInv a1) ∧
    (∀ (a : Asset) (x : ℚ) (now : ℕ) (a1 : Asset),
      a.deposit x now = Except.ok a1 → AssetInv a → AssetInv a1) ∧
    (∀ (st : GatewayState) (order : Order) (bars : List Bar) (now : ℕ)
      (st1 : GatewayState) (o1 : Order) (oid : String),
      place_order st order bars now = PlaceResult.ok st1 o1 oid →
      order.direction = OrderDirection.buy → AssetInv st.asset → AssetInv st1.asset) ∧
    (∀ (st : GatewayState) (order : Order) (bar : Bar) (rest : List Bar) (now : ℕ)
      (st1 : GatewayState) (o1 : Order) (oid : String),
      place_order st order (bar :: rest) now = PlaceResult.ok st1 o1 oid →
      order.direction = OrderDirection.sell → AssetInv st.asset →
      st1.asset.frozen_cash = st.asset.frozen_cash ∧
      st1.asset.available_cash = st.asset.available_cash +
        (calculate_costs (bar.close * (1 - slippage_sell))
          (min order.volume (max_fill_of bar)) OrderDirection.sell).1 ∧
      (0 ≤ (calculate_costs (bar.close * (1 - slippage_sell))
          (min order.volume (max_fill_of bar)) OrderDirection.sell).1 →
        AssetInv st1.asset)) := by
  refine ⟨?_, ?_, ?_, ?_, ?_, ?_⟩
  · intro a x now a1 h hinv
    unfold Asset.freeze_cash at h
    split at h
    · cases h
    split at h
    · cases h
    rename_i h1 h2
    obtain ⟨hv, hf⟩ := hinv
    cases h
    constructor
    · dsimp only
      push_neg at h2
      linarith
    · dsimp only
      linarith
  · intro a x now a1 h hinv
    unfold Asset.unfreeze_cash at h
    split at h
    · cases h
    split at h
    · cases h
    rename_i h1 h2
    obtain ⟨hv, hf⟩ := hinv
    cases h
    constructor
    · dsimp only
      linarith
    · dsimp only
      push_neg at h2
      linarith
  · intro a x now a1 h hinv
    unfold Asset.deduct_frozen_cash at h
    split at h
    · cases h
    split at h
    · cases h
    rename_i h1 h2
    obtain ⟨hv, hf⟩ := hinv
    cases h
    constructor
    · dsimp only
      linarith
    · dsimp only
      push_neg at h2
      linarith
  · intro a x now a1 h hinv
    unfold Asset.deposit at h
    split at h
    · cases h
    rename_i h1
    obtain ⟨hv, hf⟩ := hinv
    cases h
    constructor
    · dsimp only
      push_neg at h1
      linarith
    · dsimp only
      linarith
  · intro st order bars now st1 o1 oid h hdir hinv
    cases bars with
    | nil =>
      unfold place_order at h
      split at h
      · cases h
      · cases h
    | cons bar rest =>
      unfold place_order at h
      split at h
      · cases h
      dsimp only at h
      rw [hdir] at h
      simp only [reduceIte, reduceCtorEq, false_and, ite_false] at h
      split at h
      · cases h
      split at h
      · cases h
      rename_i hliq hfunds
      cases hsub : order.submit now with
      | error e =>
        rw [hsub] at h
        cases h
      | ok order1 =>
        rw [hsub] at h
        dsimp only at h
        obtain ⟨hst, heq⟩ := submit_ok_eq _ _ _ hsub
        have hdir1 : order1.direction = OrderDirection.buy := by rw [heq]; exact hdir
        obtain ⟨h1, h2, h3, h4, h5⟩ :=
          place_order_exec_ok_buy _ _ _ _ _ _ _ _ _ _ _ _ hdir1 h
        have htot := calculate_costs_buy_total (bar.close * (1 + slippage_buy))
          (min order.volume (max_fill_of bar))
        obtain ⟨hv, hf⟩ := hinv
        constructor
        · rw [h1]
          simp only [not_and, not_lt] at hfunds
          linarith
        · rw [h2]
          exact hf
  · intro st order bar rest now st1 o1 oid h hdir hinv
    unfold place_order at h
    split at h
    · cases h
    dsimp only at h
    rw [hdir] at h
    simp only [reduceIte, reduceCtorEq, false_and, ite_false] at h
    split at h
    · cases h
    split at h
    · cases h
    rename_i hliq hblock
    cases hsub : order.submit now with
    | error e =>
      rw [hsub] at h
      cases h
    | ok order1 =>
      rw [hsub] at h
      dsimp only at h
      obtain ⟨hst, heq⟩ := submit_ok_eq _ _ _ hsub
      have hdir1 : order1.direction = OrderDirection.sell := by rw [heq]; exact hdir
      obtain ⟨h1, h2, h3⟩ := place_order_exec_ok_sell _ _ _ _ _ _ _ _ _ _ _ _ hdir1 h
      have htot := calculate_costs_sell_total (bar.close * (1 - slippage_sell))
        (min order.volume (max_fill_of bar))
      obtain ⟨hv, hf⟩ := hinv
      refine ⟨h2, ?_, ?_⟩
      · rw [h1]
        linarith
      · intro hpos
        constructor
        · rw [h1]
          linarith
        · rw [h2]
          exact hf



/-- C9 (amended): for every positive `limit`, `get_recent_bars` returns
only bars with `timestamp ≤` the current clock, in ascending order
whenever the stored lists are ascending (which `add_bars` maintains),
and at most `limit` of them. For `limit = 0` the claim fails: Python's
`valid_bars[-0:]` is the whole list (see the counterexample). -/
theorem C9_amended (m : MarketState) (symbol : String) (tf : Timeframe) (limit : ℤ)
    (hlim : 1 ≤ limit) :
    (∀ b ∈ get_recent_bars m symbol tf limit, b.timestamp ≤ m.current_time) ∧
    (MarketSorted m →
      (get_recent_bars m symbol tf limit).Pairwise (fun a b => a.timestamp ≤ b.timestamp)) ∧
    ((get_recent_bars m symbol tf limit).length : ℤ) ≤ limit := by
  unfold get_recent_bars
  cases hsym : assocGet symbol m.data with
  | none =>
    dsimp only
    refine ⟨?_, ?_, ?_⟩
    · intro b hb
      cases hb
    · intro hms
      exact List.Pairwise.nil
    · simp only [List.length_nil, Nat.cast_zero]
      omega
  | some tfs =>
    dsimp only
    cases htf : assocGet tf tfs with
    | none =>
      dsimp only
      refine ⟨?_, ?_, ?_⟩
      · intro b hb
        cases hb
      · intro hms
        exact List.Pairwise.nil
      · simp only [List.length_nil, Nat.cast_zero]
        omega
    | some all_bars =>
      dsimp only
      refine ⟨?_, ?_, pyTail_length_le _ _ hlim⟩
      · intro b hb
        have hb2 := (pyTail_sublist limit _).subset hb
        rw [List.mem_filter] at hb2
        simpa using hb2.2
      · intro hms
        have hsorted : all_bars.Pairwise (fun a b => a.timestamp ≤ b.timestamp) :=
          hms _ (assocGet_mem _ _ _ hsym) _ (assocGet_mem _ _ _ htf)
        exact (hsorted.sublist (List.filter_sublist _)).sublist (pyTail_sublist _ _)



/-- C1 counterexample: against the S1 bar (`max_fill = 1000 ≥ 100`) and
a settled holding of 500 shares, the odd-lot SELL of 50 shares — a valid
SELL that the claim says is filled whenever `max_fill ≥ 100` — is
REJECTED with "insufficient liquidity". -/
theorem C1_counterexample :
    (100 : ℤ) ≤ max_fill_of bar10 ∧
    (assocGet "600000.SH" hold500.positions).map Position.available_volume = some 500 ∧
    sell50.direction = OrderDirection.sell ∧ sell50.volume = 50 ∧
    (place_order hold500 sell50 [bar10] 3).errMsg = some "Insufficient liquidity" ∧
    (place_order hold500 sell50 [bar10] 3).resOrder.status = OrderStatus.rejected := by
  refine ⟨?_, ?_, rfl, rfl, ?_, ?_⟩ <;>
    norm_num +decide [place_order, place_order_exec, simulate_fill, calculate_costs,
      initGateway, hold500, daily_settlement, cancel_all_open_orders,
      Position.settle_t_plus_1, buy100, buy500, sell100, sell50, bar10, max_fill_of,
      pyInt, sell_blocked, assocGet, assocSet, assocErase, Asset.freeze_cash,
      Asset.deduct_frozen_cash, Position.on_buy_filled, Position.on_sell_filled,
      Order.submit, Order.on_fill, Except.map, slippage_buy, slippage_sell,
      capacity_limit, commission_rate, min_commission, stamp_duty_rate,
      transfer_fee_rate, PlaceResult.resState, PlaceResult.resOrder, PlaceResult.errMsg]

/-- Witness for the amended C1 at the concrete odd-lot SELL. -/
theorem C1_witness :
    place_order hold500 sell50 [bar10] 3 =
      PlaceResult.err hold500 { sell50 with status := OrderStatus.rejected }
        "Insufficient liquidity" :=
  (C1_amended hold500 sell50 bar10 [] 3 (by norm_num [sell50, sell100])).1
    (by norm_num [sell50, sell100, bar10, max_fill_of, pyInt, capacity_limit])

/-- Witness for C2: with only 5.00 of cash, the S1 BUY is rejected with
"Insufficient funds" and the state is unchanged. -/
theorem C2_witness :
    place_order (initGateway 5) buy100 [bar10] 1 =
      PlaceResult.err (initGateway 5) { buy100 with status := OrderStatus.rejected }
        "Insufficient funds" :=
  (C2_insufficient_funds (initGateway 5) buy100 bar10 [] 1 rfl (by norm_num [buy100])
      (by norm_num [buy100, bar10, max_fill_of, pyInt, capacity_limit])).2
    (by norm_num +decide [initGateway, buy100, bar10, max_fill_of, pyInt, capacity_limit,
      calculate_costs, commission_rate, min_commission, stamp_duty_rate,
      transfer_fee_rate, slippage_buy])

/-- C3 counterexample: starting from the non-negative capital 1006.02,
buy 100 at close 10.00, settle T+1, then sell the 100 shares at close
0.01. Every step succeeds (no rejection), yet the final
`available_cash` is negative: the sale brings 0.999 but costs 5.0005 in
fees. -/
theorem C3_counterexample :
    (0 : ℚ) ≤ 1006.02 ∧
    sellBelowFees.errMsg = none ∧
    sellBelowFees.resState.asset.available_cash < 0 := by
  refine ⟨by norm_num, ?_, ?_⟩ <;>
    norm_num +decide [sellBelowFees, place_order, place_order_exec, simulate_fill,
      calculate_costs, initGateway, daily_settlement, cancel_all_open_orders,
      Position.settle_t_plus_1, buy100, sell100, bar10, barLow, max_fill_of, pyInt,
      sell_blocked, assocGet, assocSet, assocErase, Asset.freeze_cash,
      Asset.deduct_frozen_cash, Position.on_buy_filled, Position.on_sell_filled,
      Order.submit, Order.on_fill, Except.map, slippage_buy, slippage_sell,
      capacity_limit, commission_rate, min_commission, stamp_duty_rate,
      transfer_fee_rate, PlaceResult.resState, PlaceResult.errMsg]

/-- Witness for the amended C3 at a concrete freeze. -/
theorem C3_witness :
    AssetInv { account_id := "A", total_asset := 100, available_cash := 60,
               frozen_cash := 40, updated_at := 4 } :=
  C3_amended.1
    { account_id := "A", total_asset := 100, available_cash := 100,
      frozen_cash := 0, updated_at := 0 } 40 4 _
    (by norm_num [Asset.freeze_cash]) (by norm_num [AssetInv])

/-- C5 counterexample: a SELL with no position is REJECTED directly from
CREATED — it never passes through SUBMITTED, and `reject()` itself would
have raised on this order ("Cannot reject order"). -/
theorem C5_counterexample :
    sell100.status = OrderStatus.created ∧
    place_order (initGateway 1000000) sell100 [bar10] 1 =
      PlaceResult.err (initGateway 1000000)
        { sell100 with status := OrderStatus.rejected } "Insufficient position" ∧
    sell100.reject "Insufficient position" 1 = Except.error "Cannot reject order" := by
  refine ⟨rfl, ?_, rfl⟩
  norm_num +decide [place_order, place_order_exec, simulate_fill, calculate_costs,
    initGateway, sell100, bar10, max_fill_of, pyInt, sell_blocked, assocGet, assocSet,
    assocErase, Asset.freeze_cash, Asset.deduct_frozen_cash, Position.on_sell_filled,
    Order.submit, Order.on_fill, Except.map, slippage_buy, slippage_sell,
    capacity_limit, commission_rate, min_commission, stamp_duty_rate, transfer_fee_rate]

/-- Witness for the amended C5: submit from CREATED at a concrete order. -/
theorem C5_witness :
    Order.submit buy100 5 =
      Except.ok { buy100 with status := OrderStatus.submitted, updated_at := 5 } :=
  (C5_amended.1 buy100 5).1 rfl

/-- C6 counterexample: a PARTIAL_FILLED BUY order with 1100 of frozen
cash survives into settlement; afterwards its status is CANCELED (the
claim says PARTIAL_CANCELED) and the frozen cash is still 1100 (the
claim says it is unfrozen). -/
theorem C6_counterexample :
    (assocGet "o1" stPartial.orders).map Order.status = some OrderStatus.partialFilled ∧
    (assocGet "o1" (daily_settlement stPartial 9).orders).map Order.status
      = some OrderStatus.canceled ∧
    OrderStatus.canceled ≠ OrderStatus.partialCanceled ∧
    stPartial.asset.frozen_cash = 1100 ∧
    (daily_settlement stPartial 9).asset.frozen_cash = 1100 := by
  refine ⟨?_, ?_, by simp, rfl, rfl⟩ <;>
    simp [stPartial, daily_settlement, cancel_all_open_orders, Position.settle_t_plus_1,
      assocGet]

/-- Witness for the amended C6 on the concrete settlement state. -/
theorem C6_witness :
    Position.available_volume
        { account_id := "MOCK_ACCOUNT", ticker := "600000.SH", total_volume := 100,
          available_volume := 100, average_cost := 10.01, updated_at := 9 }
      = Position.total_volume
        { account_id := "MOCK_ACCOUNT", ticker := "600000.SH", total_volume := 100,
          available_volume := 100, average_cost := 10.01, updated_at := 9 } :=
  (C6_amended stPartial 9).2.2.2
    ("600000.SH",
      { account_id := "MOCK_ACCOUNT", ticker := "600000.SH", total_volume := 100,
        available_volume := 100, average_cost := 10.01, updated_at := 9 })
    (by simp [daily_settlement, cancel_all_open_orders, stPartial, Position.settle_t_plus_1])

/-- C9 counterexample: with one stored visible bar and `limit = 0` the
gateway returns 1 bar, not at most 0. -/
theorem C9_counterexample :
    (get_recent_bars mOneBar "600000.SH" Timeframe.day1 0).length = 1 ∧
    ¬ (((get_recent_bars mOneBar "600000.SH" Timeframe.day1 0).length : ℤ) ≤ 0) := by
  constructor <;>
    simp [get_recent_bars, mOneBar, assocGet, pyTail, bar10]

/-- Witness for the amended C9 at the one-bar market and `limit = 1`. -/
theorem C9_witness :
    (∀ b ∈ get_recent_bars mOneBar "600000.SH" Timeframe.day1 1,
      b.timestamp ≤ mOneBar.current_time) ∧
    (MarketSorted mOneBar →
      (get_recent_bars mOneBar "600000.SH" Timeframe.day1 1).Pairwise
        (fun a b => a.timestamp ≤ b.timestamp)) ∧
    ((get_recent_bars mOneBar "600000.SH" Timeframe.day1 1).length : ℤ) ≤ 1 :=
  C9_amended mOneBar "600000.SH" Timeframe.day1 1 (by norm_num)


end GoldenHand
